import Mathlib

/-!
# Shallow embedding of C_Mutex (src/mutex.c)

The repository is a thin lifecycle wrapper over POSIX error-checking
mutexes: `createMutexAttribute`, `destroyMutexAttribute`, `lockMutex`,
`unlockMutex`, `createMutex`, `destroyMutex`.

The wrapper code itself is embedded directly from `src/src/mutex.c`.
The OS primitives it calls (`malloc`/`free`, `pthread_mutexattr_*`,
`pthread_mutex_*`) are not part of the repository; they are modelled from
the spec's description of error-checking mutex semantics, with an
explicit `Env` of OS outcomes so that every failure branch of the C code
is reachable in the model.

A `World` threads the observable effects through each call: the
thread-local `errno` variable, the list of diagnostic reports emitted via
`printError`, and allocation accounting for the attribute object and the
mutex handle (to reason about leaks).
-/

namespace CMutex

/-- Value of the `PTHREAD_MUTEX_ERRORCHECK` attribute-type constant. -/
def PTHREAD_MUTEX_ERRORCHECK : Nat := 2

/-- `EPERM`: operation not permitted (unlock by a non-owner). -/
def EPERM : Nat := 1

/-- `ENOMEM`: allocation failure, set by a failed `malloc`. -/
def ENOMEM : Nat := 12

/-- `EBUSY`: `pthread_mutex_trylock` found the mutex already locked. -/
def EBUSY : Nat := 16

/-- `EINVAL`: invalid argument, a possible OS failure code. -/
def EINVAL : Nat := 22

/-- `EDEADLK`: relocking an error-checking mutex already held by the caller. -/
def EDEADLK : Nat := 35

/-- State of an initialized mutex: unlocked, or locked by the thread
with the given identifier. -/
inductive MutexState where
  | unlocked : MutexState
  | locked : Nat → MutexState
deriving DecidableEq

/-- An initialized `pthread_mutex_t` object: the attribute type it was
initialized with, and its current lock state. -/
structure MutexObj where
  kind : Nat
  state : MutexState
deriving DecidableEq

/-- A `pthread_mutexattr_t` object: its attribute type. -/
structure AttrObj where
  type : Nat
deriving DecidableEq

/-- One diagnostic report emitted through `printError`: the numeric error
code passed as first argument and the optional message string. The
file/function location tags are constant per call site and omitted. -/
structure Report where
  code : Nat
  message : Option String
deriving DecidableEq

/-- Observable state threaded through every operation: the thread-local
`errno`, the diagnostic reports emitted so far, and the number of live
allocations of attribute objects and mutex handles. -/
structure World where
  errno : Nat
  reports : List Report
  attrLive : Nat
  mutexLive : Nat
deriving DecidableEq

/-- Modelled from the spec: the diagnostic collaborator. `printError`
records the report and returns; it never terminates the process. -/
def printError (code : Nat) (message : Option String) (w : World) : World :=
  { w with reports := w.reports ++ [⟨code, message⟩] }

/-- OS outcomes injected into `createMutex`/`createMutexAttribute`:
whether each `malloc` succeeds, and the return codes of the
`pthread_mutexattr_*` and `pthread_mutex_init` calls (0 = success). -/
structure Env where
  attrMallocOk : Bool
  attrInitRet : Nat
  attrSettypeRet : Nat
  mutexMallocOk : Bool
  mutexInitRet : Nat
  attrDestroyRet : Nat
deriving DecidableEq

/-- Result of a non-blocking OS mutex call: the updated mutex on success,
or a nonzero error code with the mutex unchanged. -/
inductive OsResult where
  | ok : MutexObj → OsResult
  | err : Nat → OsResult
deriving DecidableEq

/-- Result of `pthread_mutex_lock`, which may also block the calling
thread indefinitely (until some other thread releases the mutex). -/
inductive OsLockResult where
  | ok : MutexObj → OsLockResult
  | err : Nat → OsLockResult
  | blocked : OsLockResult
deriving DecidableEq

/-- Modelled from the spec: `pthread_mutex_lock` by thread `tid`. An
unlocked mutex is acquired. Relocking a mutex already held by the caller
is detected as `EDEADLK` in error-checking mode (and would block forever
otherwise); locking a mutex held by another thread blocks. -/
def pthreadMutexLock (tid : Nat) (m : MutexObj) : OsLockResult :=
  match m.state with
  | .unlocked => .ok { m with state := .locked tid }
  | .locked owner =>
    if owner = tid then
      if m.kind = PTHREAD_MUTEX_ERRORCHECK then .err EDEADLK else .blocked
    else .blocked

/-- Modelled from the spec: `pthread_mutex_unlock` by thread `tid`. Only
the owning thread may release; error-checking mode reports `EPERM` when
the caller does not hold the lock. -/
def pthreadMutexUnlock (tid : Nat) (m : MutexObj) : OsResult :=
  match m.state with
  | .unlocked => .err EPERM
  | .locked owner =>
    if owner = tid then .ok { m with state := .unlocked } else .err EPERM

/-- Modelled from the spec: `pthread_mutex_trylock` by thread `tid`, the
non-blocking acquisition probe. It acquires an unlocked mutex and returns
`EBUSY` on any locked mutex, never blocking. -/
def pthreadMutexTrylock (tid : Nat) (m : MutexObj) : OsResult :=
  match m.state with
  | .unlocked => .ok { m with state := .locked tid }
  | .locked _ => .err EBUSY

/-- Message of the null-handle diagnostic in `lockMutex`. -/
def msgLockNull : String := "Could not lock mutex as it is null."

/-- Message of the OS-failure diagnostic in `lockMutex`. -/
def msgLockFail : String := "Could not lock mutex."

/-- Message of the null-handle diagnostic in `unlockMutex`. -/
def msgUnlockNull : String := "Could not unlock mutex as it is null."

/-- Message of the OS-failure diagnostic in `unlockMutex`. -/
def msgUnlockFail : String := "Could not unlock mutex."

/-- Message of the null-handle diagnostic in `destroyMutex`. -/
def msgDestroyNull : String := "Could not destroy mutex as it is null."

/-- Message of the still-locked diagnostic in `destroyMutex`. -/
def msgDestroyLocked : String := "Could not destroy mutex as it is locked."

/-- Message of the OS-destroy-failure diagnostic in `destroyMutex`. -/
def msgDestroyFail : String := "Could not destroy mutex."

/-- Message of the allocation-failure diagnostic in `createMutexAttribute`. -/
def msgAttrAlloc : String := "Could not allocate memory for attribute."

/-- Message of the init-failure diagnostic in `createMutexAttribute`. -/
def msgAttrInit : String := "Could not initialize attribute."

/-- Message of the settype-failure diagnostic in `createMutexAttribute`. -/
def msgAttrSettype : String := "Could not set attribute type."

/-- Message of the null-argument diagnostic in `destroyMutexAttribute`. -/
def msgAttrDestroyNull : String := "Could not destroy attribute as it is null."

/-- Message of the OS-failure diagnostic in `destroyMutexAttribute`. -/
def msgAttrDestroyFail : String := "Could not destroy attribute."

/-- Message of the attribute-stage diagnostic in `createMutex`. -/
def msgCreateAttr : String := "Could not create attribute."

/-- Message of the mutex-allocation diagnostic in `createMutex`. -/
def msgMutexAlloc : String := "Could not allocate memory for mutex."

/-- Message of the mutex-init diagnostic in `createMutex`. -/
def msgMutexInit : String := "Could not initialize mutex."

/-- Outcome of `lockMutex`: a returned code with the (possibly updated)
pointed-to mutex and world, or the calling thread blocked. -/
inductive LockOutcome where
  | ret : Nat → Option MutexObj → World → LockOutcome
  | blocked : World → LockOutcome
deriving DecidableEq

/-- Embedding of `lockMutex` (mutex.c lines 106-128). A null handle is
reported with code 0 and returns 1, leaving `errno` untouched; otherwise
the result of `pthread_mutex_lock` is assigned to `errno` and a nonzero
code is reported and returns 1; success returns 0. -/
def lockMutex (tid : Nat) (mutex : Option MutexObj) (w : World) : LockOutcome :=
  match mutex with
  | none => .ret 1 none (printError 0 (some msgLockNull) w)
  | some m =>
    match pthreadMutexLock tid m with
    | .ok m1 => .ret 0 (some m1) { w with errno := 0 }
    | .err c => .ret 1 (some m) (printError c (some msgLockFail) { w with errno := c })
    | .blocked => .blocked w

/-- Embedding of `unlockMutex` (mutex.c lines 136-158). Returns the code
(0 or 1), the pointed-to mutex after the call, and the world. -/
def unlockMutex (tid : Nat) (mutex : Option MutexObj) (w : World) :
    Nat × Option MutexObj × World :=
  match mutex with
  | none => (1, none, printError 0 (some msgUnlockNull) w)
  | some m =>
    match pthreadMutexUnlock tid m with
    | .ok m1 => (0, some m1, { w with errno := 0 })
    | .err c => (1, some m, printError c (some msgUnlockFail) { w with errno := c })

/-- Embedding of `createMutexAttribute` (mutex.c lines 32-67): allocate
an attribute, initialize it, set its type to `PTHREAD_MUTEX_ERRORCHECK`;
on any failure report, free the allocation and return NULL. A failed
`malloc` sets `errno` to `ENOMEM`; each `pthread_mutexattr_*` result is
assigned to `errno`. -/
def createMutexAttribute (env : Env) (w : World) : Option AttrObj × World :=
  if env.attrMallocOk = false then
    (none, printError ENOMEM (some msgAttrAlloc) { w with errno := ENOMEM })
  else
    let w1 := { w with attrLive := w.attrLive + 1, errno := env.attrInitRet }
    if env.attrInitRet ≠ 0 then
      (none, { printError env.attrInitRet (some msgAttrInit) w1 with attrLive := w1.attrLive - 1 })
    else
      let w2 := { w1 with errno := env.attrSettypeRet }
      if env.attrSettypeRet ≠ 0 then
        (none, { printError env.attrSettypeRet (some msgAttrSettype) w2 with attrLive := w2.attrLive - 1 })
      else
        (some ⟨PTHREAD_MUTEX_ERRORCHECK⟩, w2)

/-- Embedding of `destroyMutexAttribute` (mutex.c lines 75-98): a null
attribute is reported with code 0 and returns 1; the result of
`pthread_mutexattr_destroy` is assigned to `errno`, a nonzero result is
reported and returns 1 without freeing; otherwise the attribute is freed
and 0 is returned. -/
def destroyMutexAttribute (env : Env) (attrPtr : Option AttrObj) (w : World) :
    Nat × World :=
  match attrPtr with
  | none => (1, printError 0 (some msgAttrDestroyNull) w)
  | some _ =>
    let w1 := { w with errno := env.attrDestroyRet }
    if env.attrDestroyRet ≠ 0 then
      (1, printError env.attrDestroyRet (some msgAttrDestroyFail) w1)
    else
      (0, { w1 with attrLive := w1.attrLive - 1 })

/-- Embedding of `createMutex` (mutex.c lines 166-221): create the
error-checking attribute, allocate the mutex, initialize it with the
attribute, destroy the attribute; each failure reports, releases what the
branch releases in the C code, and returns NULL. -/
def createMutex (env : Env) (w : World) : Option MutexObj × World :=
  match createMutexAttribute env w with
  | (none, w1) => (none, printError 0 (some msgCreateAttr) w1)
  | (some attrPtr, w1) =>
    if env.mutexMallocOk = false then
      let w2 := printError ENOMEM (some msgMutexAlloc) { w1 with errno := ENOMEM }
      let r := destroyMutexAttribute env (some attrPtr) w2
      let w3 := if r.1 ≠ 0 then printError 0 none r.2 else r.2
      (none, w3)
    else
      let w2 := { w1 with mutexLive := w1.mutexLive + 1, errno := env.mutexInitRet }
      if env.mutexInitRet ≠ 0 then
        let w3 := printError env.mutexInitRet (some msgMutexInit) w2
        let r := destroyMutexAttribute env (some attrPtr) w3
        let w4 := if r.1 ≠ 0 then printError 0 none r.2 else r.2
        (none, { w4 with mutexLive := w4.mutexLive - 1 })
      else
        let m : MutexObj := { kind := attrPtr.type, state := .unlocked }
        let r := destroyMutexAttribute env (some attrPtr) w2
        if r.1 ≠ 0 then
          (none, { printError 0 none r.2 with mutexLive := r.2.mutexLive - 1 })
        else
          (some m, r.2)

/-- Outcome of `destroyMutex`: the returned code, whether the handle's
backing memory was freed, whether the OS-level destroy was performed, the
pointed-to mutex when still allocated, and the world. -/
structure DestroyOut where
  ret : Nat
  freed : Bool
  osDestroyed : Bool
  mutex : Option MutexObj
  world : World
deriving DecidableEq

/-- Embedding of `destroyMutex` (mutex.c lines 229-280): null check, then
the non-blocking trylock probe (its result assigned to `errno`; `EBUSY`
means still locked and is refused), then release of the probe's
acquisition via `unlockMutex`, then `pthread_mutex_destroy` (its result
`destroyRet` assigned to `errno`), and only then `free`. -/
def destroyMutex (tid : Nat) (mutex : Option MutexObj) (destroyRet : Nat) (w : World) :
    DestroyOut :=
  match mutex with
  | none => ⟨1, false, false, none, printError 0 (some msgDestroyNull) w⟩
  | some m =>
    match pthreadMutexTrylock tid m with
    | .err c =>
      ⟨1, false, false, some m, printError c (some msgDestroyLocked) { w with errno := c }⟩
    | .ok m1 =>
      let u := unlockMutex tid (some m1) { w with errno := 0 }
      if u.1 ≠ 0 then
        ⟨1, false, false, u.2.1, printError 0 none u.2.2⟩
      else
        let w2 := { u.2.2 with errno := destroyRet }
        if destroyRet ≠ 0 then
          ⟨1, false, false, u.2.1, printError destroyRet (some msgDestroyFail) w2⟩
        else
          ⟨0, true, true, none, { w2 with mutexLive := w2.mutexLive - 1 }⟩

/-! ## Helper lemmas -/

/-- A failing `pthread_mutex_lock` returns a nonzero code (`EDEADLK`). -/
theorem pthreadMutexLock_err_ne_zero (tid : Nat) (m : MutexObj) (c : Nat)
    (h : pthreadMutexLock tid m = OsLockResult.err c) : c ≠ 0 := by
  unfold pthreadMutexLock at h
  split at h
  · exact absurd h (by simp)
  · split at h
    · split at h
      · simp only [OsLockResult.err.injEq] at h
        subst h
        decide
      · exact absurd h (by simp)
    · exact absurd h (by simp)

/-- A failing `pthread_mutex_unlock` returns a nonzero code (`EPERM`). -/
theorem pthreadMutexUnlock_err_ne_zero (tid : Nat) (m : MutexObj) (c : Nat)
    (h : pthreadMutexUnlock tid m = OsResult.err c) : c ≠ 0 := by
  unfold pthreadMutexUnlock at h
  split at h
  · simp only [OsResult.err.injEq] at h
    subst h
    decide
  · split at h
    · exact absurd h (by simp)
    · simp only [OsResult.err.injEq] at h
      subst h
      decide

/-- A failing `pthread_mutex_trylock` returns a nonzero code (`EBUSY`). -/
theorem pthreadMutexTrylock_err_ne_zero (tid : Nat) (m : MutexObj) (c : Nat)
    (h : pthreadMutexTrylock tid m = OsResult.err c) : c ≠ 0 := by
  unfold pthreadMutexTrylock at h
  split at h
  · exact absurd h (by simp)
  · simp only [OsResult.err.injEq] at h
    subst h
    decide

/-- A successful `createMutexAttribute` yields an error-checking attribute. -/
theorem createMutexAttribute_type (env : Env) (w : World) (a : AttrObj) (w2 : World)
    (h : createMutexAttribute env w = (some a, w2)) :
    a.type = PTHREAD_MUTEX_ERRORCHECK := by
  unfold createMutexAttribute at h
  split at h
  · simp at h
  · simp only at h
    split at h
    · simp at h
    · split at h
      · simp at h
      · simp only [Prod.mk.injEq, Option.some.injEq] at h
        rw [← h.1]

/-! ## Claims -/

/-- C10: whenever `destroyMutex` returns failure, the handle's backing
memory has not been freed and the OS lock has not been torn down; the
free occurs only on the path where probe, release and OS destroy all
succeed, and a failed destroy on a non-null handle leaves the handle
allocated. -/
theorem destroyMutex_failure_preserves_handle (tid dr : Nat) (mutex : Option MutexObj)
    (w : World) :
    ((destroyMutex tid mutex dr w).ret = 1 →
      (destroyMutex tid mutex dr w).freed = false ∧
      (destroyMutex tid mutex dr w).osDestroyed = false ∧
      (∀ m, mutex = some m → ∃ m2, (destroyMutex tid mutex dr w).mutex = some m2)) ∧
    ((destroyMutex tid mutex dr w).freed = true →
      (destroyMutex tid mutex dr w).ret = 0 ∧
      (destroyMutex tid mutex dr w).osDestroyed = true) := by
  cases mutex with
  | none => simp [destroyMutex]
  | some m =>
    obtain ⟨k, s⟩ := m
    cases s with
    | locked o => simp [destroyMutex, pthreadMutexTrylock]
    | unlocked =>
      by_cases hdr : dr = 0 <;>
        simp [destroyMutex, pthreadMutexTrylock, unlockMutex, pthreadMutexUnlock, hdr]

/-- C10 witness: a concrete failed destroy (still-locked handle) leaves
the handle allocated and the OS lock intact. -/
theorem destroyMutex_failure_preserves_handle_witness :
    (destroyMutex 5 (some ⟨2, MutexState.locked 3⟩) 0 ⟨0, [], 0, 1⟩).freed = false ∧
    (destroyMutex 5 (some ⟨2, MutexState.locked 3⟩) 0 ⟨0, [], 0, 1⟩).osDestroyed = false ∧
    (∀ m, (some ⟨2, MutexState.locked 3⟩ : Option MutexObj) = some m →
      ∃ m2, (destroyMutex 5 (some ⟨2, MutexState.locked 3⟩) 0 ⟨0, [], 0, 1⟩).mutex = some m2) :=
  (destroyMutex_failure_preserves_handle 5 0 (some ⟨2, MutexState.locked 3⟩) ⟨0, [], 0, 1⟩).1 rfl

/-- C5: locking a handle already held by the calling thread fails
immediately with `EDEADLK` under error-checking mode: it does not block,
does not succeed, and leaves the handle state unchanged. -/
theorem lockMutex_self_relock_fails (tid : Nat) (m : MutexObj) (w : World)
    (hk : m.kind = PTHREAD_MUTEX_ERRORCHECK) (hs : m.state = MutexState.locked tid) :
    lockMutex tid (some m) w =
      LockOutcome.ret 1 (some m)
        (printError EDEADLK (some msgLockFail) { w with errno := EDEADLK }) := by
  simp [lockMutex, pthreadMutexLock, hs, hk]

/-- C5 witness: thread 7 relocking its own lock fails without blocking. -/
theorem lockMutex_self_relock_fails_witness :
    lockMutex 7 (some ⟨PTHREAD_MUTEX_ERRORCHECK, MutexState.locked 7⟩) ⟨0, [], 0, 1⟩ =
      LockOutcome.ret 1 (some ⟨PTHREAD_MUTEX_ERRORCHECK, MutexState.locked 7⟩)
        (printError EDEADLK (some msgLockFail) ⟨EDEADLK, [], 0, 1⟩) :=
  lockMutex_self_relock_fails 7 ⟨PTHREAD_MUTEX_ERRORCHECK, MutexState.locked 7⟩
    ⟨0, [], 0, 1⟩ rfl rfl

/-- C6: unlocking a handle not held by the calling thread fails with a
reported `EPERM` error under error-checking mode, and the handle's lock
state is unchanged. -/
theorem unlockMutex_not_owner_fails (tid : Nat) (m : MutexObj) (w : World)
    (hk : m.kind = PTHREAD_MUTEX_ERRORCHECK) (hs : m.state ≠ MutexState.locked tid) :
    unlockMutex tid (some m) w =
      (1, some m, printError EPERM (some msgUnlockFail) { w with errno := EPERM }) := by
  obtain ⟨k, s⟩ := m
  cases s with
  | unlocked => simp [unlockMutex, pthreadMutexUnlock]
  | locked o =>
    have ho : ¬ o = tid := fun h => hs (by simp [h])
    simp [unlockMutex, pthreadMutexUnlock, ho]

/-- C6 witness: thread 4 unlocking a lock held by thread 9 fails with
the handle still locked by thread 9. -/
theorem unlockMutex_not_owner_fails_witness :
    unlockMutex 4 (some ⟨PTHREAD_MUTEX_ERRORCHECK, MutexState.locked 9⟩) ⟨0, [], 0, 1⟩ =
      (1, some ⟨PTHREAD_MUTEX_ERRORCHECK, MutexState.locked 9⟩,
        printError EPERM (some msgUnlockFail) ⟨EPERM, [], 0, 1⟩) :=
  unlockMutex_not_owner_fails 4 ⟨PTHREAD_MUTEX_ERRORCHECK, MutexState.locked 9⟩
    ⟨0, [], 0, 1⟩ rfl (by simp)

/-- C7: on an unlocked initialized handle, `lockMutex` then `unlockMutex`
by the same thread both succeed and return the handle to the unlocked
state. -/
theorem lock_then_unlock_roundtrip (tid : Nat) (m : MutexObj) (w : World)
    (hs : m.state = MutexState.unlocked) :
    lockMutex tid (some m) w =
      LockOutcome.ret 0 (some { m with state := MutexState.locked tid })
        { w with errno := 0 } ∧
    unlockMutex tid (some { m with state := MutexState.locked tid }) { w with errno := 0 } =
      (0, some m, { w with errno := 0 }) := by
  obtain ⟨k, s⟩ := m
  simp only at hs
  subst hs
  simp [lockMutex, pthreadMutexLock, unlockMutex, pthreadMutexUnlock]

/-- C7 witness: thread 3 locks then unlocks a concrete unlocked handle;
both calls return 0 and the handle ends unlocked. -/
theorem lock_then_unlock_roundtrip_witness :
    lockMutex 3 (some ⟨PTHREAD_MUTEX_ERRORCHECK, MutexState.unlocked⟩) ⟨0, [], 0, 1⟩ =
      LockOutcome.ret 0 (some ⟨PTHREAD_MUTEX_ERRORCHECK, MutexState.locked 3⟩)
        ⟨0, [], 0, 1⟩ ∧
    unlockMutex 3 (some ⟨PTHREAD_MUTEX_ERRORCHECK, MutexState.locked 3⟩) ⟨0, [], 0, 1⟩ =
      (0, some ⟨PTHREAD_MUTEX_ERRORCHECK, MutexState.unlocked⟩, ⟨0, [], 0, 1⟩) :=
  lock_then_unlock_roundtrip 3 ⟨PTHREAD_MUTEX_ERRORCHECK, MutexState.unlocked⟩
    ⟨0, [], 0, 1⟩ rfl

/-- C1: the per-handle state machine. A successful `createMutex` yields a
handle in the unlocked state (with error-checking mode); `lockMutex`
takes unlocked to locked-by-caller; `unlockMutex` takes locked-by-caller
back to unlocked; `destroyMutex` from unlocked (with the OS destroy
succeeding) frees the handle, the terminal state; and `destroyMutex` on a
locked handle returns failure with the handle still allocated and
unchanged. -/
theorem mutex_lifecycle_state_machine :
    (∀ env w m w2, createMutex env w = (some m, w2) →
      m.state = MutexState.unlocked ∧ m.kind = PTHREAD_MUTEX_ERRORCHECK) ∧
    (∀ tid m w, m.state = MutexState.unlocked →
      lockMutex tid (some m) w =
        LockOutcome.ret 0 (some { m with state := MutexState.locked tid })
          { w with errno := 0 }) ∧
    (∀ tid m w, m.state = MutexState.locked tid →
      unlockMutex tid (some m) w =
        (0, some { m with state := MutexState.unlocked }, { w with errno := 0 })) ∧
    (∀ tid m w, m.state = MutexState.unlocked →
      (destroyMutex tid (some m) 0 w).ret = 0 ∧
      (destroyMutex tid (some m) 0 w).freed = true) ∧
    (∀ tid dr o m w, m.state = MutexState.locked o →
      (destroyMutex tid (some m) dr w).ret = 1 ∧
      (destroyMutex tid (some m) dr w).freed = false ∧
      (destroyMutex tid (some m) dr w).mutex = some m) := by
  refine ⟨?_, ?_, ?_, ?_, ?_⟩
  · intro env w m w2 h
    unfold createMutex at h
    split at h
    · simp at h
    next attrPtr w1 heq =>
      simp only at h
      split at h
      · simp at h
      · split at h
        · simp at h
        · split at h
          · simp at h
          · simp only [Prod.mk.injEq, Option.some.injEq] at h
            have ht := createMutexAttribute_type env w attrPtr w1 heq
            rw [← h.1]
            exact ⟨rfl, ht⟩
  · intro tid m w hs
    obtain ⟨k, s⟩ := m
    simp only at hs
    subst hs
    simp [lockMutex, pthreadMutexLock]
  · intro tid m w hs
    obtain ⟨k, s⟩ := m
    simp only at hs
    subst hs
    simp [unlockMutex, pthreadMutexUnlock]
  · intro tid m w hs
    obtain ⟨k, s⟩ := m
    simp only at hs
    subst hs
    simp [destroyMutex, pthreadMutexTrylock, unlockMutex, pthreadMutexUnlock]
  · intro tid dr o m w hs
    obtain ⟨k, s⟩ := m
    simp only at hs
    subst hs
    simp [destroyMutex, pthreadMutexTrylock]

/-- C1 witness: the state machine exercised on concrete handles: a
successful construction is unlocked and error-checking; thread 3 locks,
unlocks; destroy from unlocked frees; destroy on a locked handle fails
leaving it locked. -/
theorem mutex_lifecycle_state_machine_witness :
    ((⟨2, MutexState.unlocked⟩ : MutexObj).state = MutexState.unlocked ∧
      (⟨2, MutexState.unlocked⟩ : MutexObj).kind = PTHREAD_MUTEX_ERRORCHECK) ∧
    lockMutex 3 (some ⟨2, MutexState.unlocked⟩) ⟨0, [], 0, 1⟩ =
      LockOutcome.ret 0 (some ⟨2, MutexState.locked 3⟩) ⟨0, [], 0, 1⟩ ∧
    unlockMutex 3 (some ⟨2, MutexState.locked 3⟩) ⟨0, [], 0, 1⟩ =
      (0, some ⟨2, MutexState.unlocked⟩, ⟨0, [], 0, 1⟩) ∧
    ((destroyMutex 3 (some ⟨2, MutexState.unlocked⟩) 0 ⟨0, [], 0, 1⟩).ret = 0 ∧
      (destroyMutex 3 (some ⟨2, MutexState.unlocked⟩) 0 ⟨0, [], 0, 1⟩).freed = true) ∧
    ((destroyMutex 3 (some ⟨2, MutexState.locked 5⟩) 0 ⟨0, [], 0, 1⟩).ret = 1 ∧
      (destroyMutex 3 (some ⟨2, MutexState.locked 5⟩) 0 ⟨0, [], 0, 1⟩).freed = false ∧
      (destroyMutex 3 (some ⟨2, MutexState.locked 5⟩) 0 ⟨0, [], 0, 1⟩).mutex =
        some ⟨2, MutexState.locked 5⟩) :=
  ⟨mutex_lifecycle_state_machine.1 ⟨true, 0, 0, true, 0, 0⟩ ⟨0, [], 0, 0⟩
      ⟨2, MutexState.unlocked⟩ ⟨0, [], 0, 1⟩ rfl,
    mutex_lifecycle_state_machine.2.1 3 ⟨2, MutexState.unlocked⟩ ⟨0, [], 0, 1⟩ rfl,
    mutex_lifecycle_state_machine.2.2.1 3 ⟨2, MutexState.locked 3⟩ ⟨0, [], 0, 1⟩ rfl,
    mutex_lifecycle_state_machine.2.2.2.1 3 ⟨2, MutexState.unlocked⟩ ⟨0, [], 0, 1⟩ rfl,
    mutex_lifecycle_state_machine.2.2.2.2 3 0 5 ⟨2, MutexState.locked 5⟩ ⟨0, [], 0, 1⟩ rfl⟩

/-- C3: `destroyMutex` on a locked handle (held by any thread) is refused
by the non-blocking trylock probe: it returns 1, reports the still-locked
error (`EBUSY`), and leaves the handle unchanged — still locked, still
releasable by its owner, and still destructible once unlocked. -/
theorem destroyMutex_refuses_locked (tid o dr : Nat) (m : MutexObj) (w w2 w3 : World)
    (hs : m.state = MutexState.locked o) :
    destroyMutex tid (some m) dr w =
      ⟨1, false, false, some m,
        printError EBUSY (some msgDestroyLocked) { w with errno := EBUSY }⟩ ∧
    unlockMutex o (some m) w2 =
      (0, some { m with state := MutexState.unlocked }, { w2 with errno := 0 }) ∧
    (destroyMutex tid (some { m with state := MutexState.unlocked }) 0 w3).ret = 0 ∧
    (destroyMutex tid (some { m with state := MutexState.unlocked }) 0 w3).freed = true := by
  obtain ⟨k, s⟩ := m
  simp only at hs
  subst hs
  refine ⟨?_, ?_, ?_⟩
  · simp [destroyMutex, pthreadMutexTrylock]
  · simp [unlockMutex, pthreadMutexUnlock]
  · simp [destroyMutex, pthreadMutexTrylock, unlockMutex, pthreadMutexUnlock]

/-- C3 witness: thread 8 attempting to destroy a handle locked by thread
2 is refused with an `EBUSY` report; thread 2 can still unlock it, and
the unlocked handle is then destructible. -/
theorem destroyMutex_refuses_locked_witness :
    destroyMutex 8 (some ⟨2, MutexState.locked 2⟩) 0 ⟨0, [], 0, 1⟩ =
      ⟨1, false, false, some ⟨2, MutexState.locked 2⟩,
        printError EBUSY (some msgDestroyLocked) ⟨EBUSY, [], 0, 1⟩⟩ ∧
    unlockMutex 2 (some ⟨2, MutexState.locked 2⟩) ⟨0, [], 0, 1⟩ =
      (0, some ⟨2, MutexState.unlocked⟩, ⟨0, [], 0, 1⟩) ∧
    (destroyMutex 8 (some ⟨2, MutexState.unlocked⟩) 0 ⟨0, [], 0, 1⟩).ret = 0 ∧
    (destroyMutex 8 (some ⟨2, MutexState.unlocked⟩) 0 ⟨0, [], 0, 1⟩).freed = true :=
  destroyMutex_refuses_locked 8 2 0 ⟨2, MutexState.locked 2⟩
    ⟨0, [], 0, 1⟩ ⟨0, [], 0, 1⟩ ⟨0, [], 0, 1⟩ rfl

/-- C4: `destroyMutex` on an unlocked handle: the probe's acquisition is
released before the OS-level destroy (witnessed by the handle being
unlocked on the destroy-failure path); when the OS destroy succeeds it
frees the handle and returns 0, and when the OS destroy fails it reports
that error and returns 1 without freeing. -/
theorem destroyMutex_unlocked_behavior (tid dr : Nat) (m : MutexObj) (w : World)
    (hs : m.state = MutexState.unlocked) :
    (dr = 0 → destroyMutex tid (some m) dr w =
      ⟨0, true, true, none, { w with errno := 0, mutexLive := w.mutexLive - 1 }⟩) ∧
    (dr ≠ 0 → destroyMutex tid (some m) dr w =
      ⟨1, false, false, some m,
        printError dr (some msgDestroyFail) { w with errno := dr }⟩) := by
  obtain ⟨k, s⟩ := m
  simp only at hs
  subst hs
  constructor
  · intro hdr
    subst hdr
    simp [destroyMutex, pthreadMutexTrylock, unlockMutex, pthreadMutexUnlock]
  · intro hdr
    simp [destroyMutex, pthreadMutexTrylock, unlockMutex, pthreadMutexUnlock, hdr]

/-- C4 witness: destroying a concrete unlocked handle succeeds and frees
it when the OS destroy returns 0, and fails with an `EINVAL` report,
leaving the handle allocated and unlocked, when the OS destroy returns
`EINVAL`. -/
theorem destroyMutex_unlocked_behavior_witness :
    destroyMutex 6 (some ⟨2, MutexState.unlocked⟩) 0 ⟨5, [], 0, 1⟩ =
      ⟨0, true, true, none, ⟨0, [], 0, 0⟩⟩ ∧
    destroyMutex 6 (some ⟨2, MutexState.unlocked⟩) EINVAL ⟨5, [], 0, 1⟩ =
      ⟨1, false, false, some ⟨2, MutexState.unlocked⟩,
        printError EINVAL (some msgDestroyFail) ⟨EINVAL, [], 0, 1⟩⟩ :=
  ⟨(destroyMutex_unlocked_behavior 6 0 ⟨2, MutexState.unlocked⟩ ⟨5, [], 0, 1⟩ rfl).1 rfl,
    (destroyMutex_unlocked_behavior 6 EINVAL ⟨2, MutexState.unlocked⟩ ⟨5, [], 0, 1⟩ rfl).2
      (by decide)⟩

/-- C2 counterexample: with the handle allocation failing (an enumerated
internal failure of Construct) and the attribute-teardown call also
failing with `EINVAL`, `createMutex` returns NULL but the attribute
object is not freed (`destroyMutexAttribute` returns 1 without freeing),
so one attribute allocation leaks — refuting "no memory is leaked on any
failure branch". -/
theorem createMutex_attr_teardown_leak :
    (createMutex ⟨true, 0, 0, false, 0, EINVAL⟩ ⟨0, [], 0, 0⟩).1 = none ∧
    (createMutex ⟨true, 0, 0, false, 0, EINVAL⟩ ⟨0, [], 0, 0⟩).2.attrLive = 1 ∧
    (createMutex ⟨true, 0, 0, false, 0, EINVAL⟩ ⟨0, [], 0, 0⟩).2.mutexLive = 0 := by
  decide

/-- C2 (amended): for every enumerated internal failure of Construct
(allocation failure of the handle or the attribute object,
attribute-initialization failure, attribute-configuration failure, or
OS-level lock-initialization failure), `createMutex` returns NULL, so no
partially-constructed handle is returned; and provided the
attribute-teardown step succeeds, every partially-acquired resource (the
attribute object and the handle memory) is released, so no memory is
leaked. (When the attribute teardown itself fails, the attribute object
is not freed and leaks.) -/
theorem createMutex_failure_cleanup (env : Env) (w : World)
    (hf : env.attrMallocOk = false ∨ env.attrInitRet ≠ 0 ∨ env.attrSettypeRet ≠ 0 ∨
      env.mutexMallocOk = false ∨ env.mutexInitRet ≠ 0) :
    (createMutex env w).1 = none ∧
    (env.attrDestroyRet = 0 →
      (createMutex env w).2.attrLive = w.attrLive ∧
      (createMutex env w).2.mutexLive = w.mutexLive) := by
  obtain ⟨am, ai, ast, mm, mi, ad⟩ := env
  simp only at hf ⊢
  rcases am <;> rcases mm <;> by_cases hai : ai = 0 <;> by_cases hast : ast = 0 <;>
    by_cases hmi : mi = 0 <;> by_cases had : ad = 0 <;>
      simp_all [createMutex, createMutexAttribute, destroyMutexAttribute, printError]

/-- C2 witness: with the attribute allocation forced to fail and the
remaining OS calls succeeding, construction returns NULL and the
allocation counts are unchanged. -/
theorem createMutex_failure_cleanup_witness :
    (createMutex ⟨false, 0, 0, true, 0, 0⟩ ⟨0, [], 0, 0⟩).1 = none ∧
    ((⟨false, 0, 0, true, 0, 0⟩ : Env).attrDestroyRet = 0 →
      (createMutex ⟨false, 0, 0, true, 0, 0⟩ ⟨0, [], 0, 0⟩).2.attrLive =
        (⟨0, [], 0, 0⟩ : World).attrLive ∧
      (createMutex ⟨false, 0, 0, true, 0, 0⟩ ⟨0, [], 0, 0⟩).2.mutexLive =
        (⟨0, [], 0, 0⟩ : World).mutexLive) :=
  createMutex_failure_cleanup ⟨false, 0, 0, true, 0, 0⟩ ⟨0, [], 0, 0⟩ (Or.inl rfl)

/-- C8: every failing operation emits at least one diagnostic report
through `printError` and returns the simple failure signal — 1 for
`lockMutex`/`unlockMutex`/`destroyMutex` (whose return codes are always 0
or 1) and NULL for `createMutex`; no operation terminates the process
(every operation is a total function returning to its caller). -/
theorem failures_report_and_return :
    (∀ env w, (createMutex env w).1 = none →
      w.reports.length < (createMutex env w).2.reports.length) ∧
    (∀ tid mutex w c h w2, lockMutex tid mutex w = LockOutcome.ret c h w2 →
      (c = 0 ∨ c = 1) ∧ (c = 1 → w.reports.length < w2.reports.length)) ∧
    (∀ tid mutex w, ((unlockMutex tid mutex w).1 = 0 ∨ (unlockMutex tid mutex w).1 = 1) ∧
      ((unlockMutex tid mutex w).1 = 1 →
        w.reports.length < (unlockMutex tid mutex w).2.2.reports.length)) ∧
    (∀ tid mutex dr w,
      ((destroyMutex tid mutex dr w).ret = 0 ∨ (destroyMutex tid mutex dr w).ret = 1) ∧
      ((destroyMutex tid mutex dr w).ret = 1 →
        w.reports.length < (destroyMutex tid mutex dr w).world.reports.length)) := by
  refine ⟨?_, ?_, ?_, ?_⟩
  · intro env w
    obtain ⟨am, ai, ast, mm, mi, ad⟩ := env
    rcases am <;> rcases mm <;> by_cases hai : ai = 0 <;> by_cases hast : ast = 0 <;>
      by_cases hmi : mi = 0 <;> by_cases had : ad = 0 <;>
        simp_all [createMutex, createMutexAttribute, destroyMutexAttribute, printError]
  · intro tid mutex w c h w2 hret
    cases mutex with
    | none =>
      simp only [lockMutex, LockOutcome.ret.injEq] at hret
      obtain ⟨hc, -, hw⟩ := hret
      subst hc
      subst hw
      simp [printError]
    | some m =>
      obtain ⟨k, s⟩ := m
      cases s with
      | unlocked =>
        simp only [lockMutex, pthreadMutexLock, LockOutcome.ret.injEq] at hret
        obtain ⟨hc, -, -⟩ := hret
        subst hc
        simp
      | locked o =>
        by_cases ho : o = tid
        · by_cases hk : k = PTHREAD_MUTEX_ERRORCHECK
          · simp only [lockMutex, pthreadMutexLock, ho, hk, if_true,
              LockOutcome.ret.injEq] at hret
            obtain ⟨hc, -, hw⟩ := hret
            subst hc
            subst hw
            simp [printError]
          · simp [lockMutex, pthreadMutexLock, ho, hk] at hret
        · simp [lockMutex, pthreadMutexLock, ho] at hret
  · intro tid mutex w
    cases mutex with
    | none => simp [unlockMutex, printError]
    | some m =>
      obtain ⟨k, s⟩ := m
      cases s with
      | unlocked => simp [unlockMutex, pthreadMutexUnlock, printError]
      | locked o =>
        by_cases ho : o = tid <;> simp [unlockMutex, pthreadMutexUnlock, ho, printError]
  · intro tid mutex dr w
    cases mutex with
    | none => simp [destroyMutex, printError]
    | some m =>
      obtain ⟨k, s⟩ := m
      cases s with
      | locked o => simp [destroyMutex, pthreadMutexTrylock, printError]
      | unlocked =>
        by_cases hdr : dr = 0 <;>
          simp [destroyMutex, pthreadMutexTrylock, unlockMutex, pthreadMutexUnlock,
            hdr, printError]

/-- C8 witness: concrete failing calls — construction with a failed
attribute allocation, and lock/unlock/destroy on a null handle — each
return the failure signal having emitted at least one report. -/
theorem failures_report_and_return_witness :
    (⟨0, [], 0, 0⟩ : World).reports.length <
      (createMutex ⟨false, 0, 0, true, 0, 0⟩ ⟨0, [], 0, 0⟩).2.reports.length ∧
    (⟨0, [], 0, 0⟩ : World).reports.length <
      (printError 0 (some msgLockNull) ⟨0, [], 0, 0⟩).reports.length ∧
    (⟨0, [], 0, 0⟩ : World).reports.length <
      (unlockMutex 4 none ⟨0, [], 0, 0⟩).2.2.reports.length ∧
    (⟨0, [], 0, 0⟩ : World).reports.length <
      (destroyMutex 4 none 0 ⟨0, [], 0, 0⟩).world.reports.length :=
  ⟨failures_report_and_return.1 ⟨false, 0, 0, true, 0, 0⟩ ⟨0, [], 0, 0⟩ rfl,
    (failures_report_and_return.2.1 4 none ⟨0, [], 0, 0⟩ 1 none
      (printError 0 (some msgLockNull) ⟨0, [], 0, 0⟩) rfl).2 rfl,
    (failures_report_and_return.2.2.1 4 none ⟨0, [], 0, 0⟩).2 rfl,
    (failures_report_and_return.2.2.2 4 none 0 ⟨0, [], 0, 0⟩).2 rfl⟩

/-- C9: on each failure caused by an OS primitive, the operation assigns
the primitive's nonzero return code to `errno` before invoking the
reporter (the reporter is applied to the world already carrying
`errno = c`, and the report carries the same code), whereas the
null-argument failure paths of `lockMutex`, `unlockMutex` and
`destroyMutex` report error code 0 and leave `errno` unchanged
(`printError` never modifies `errno`). -/
theorem errno_discipline :
    (∀ tid w, lockMutex tid none w =
      LockOutcome.ret 1 none (printError 0 (some msgLockNull) w)) ∧
    (∀ tid w, unlockMutex tid none w = (1, none, printError 0 (some msgUnlockNull) w)) ∧
    (∀ tid dr w, destroyMutex tid none dr w =
      ⟨1, false, false, none, printError 0 (some msgDestroyNull) w⟩) ∧
    (∀ c msg w, (printError c msg w).errno = w.errno) ∧
    (∀ tid m w c, pthreadMutexLock tid m = OsLockResult.err c → c ≠ 0 ∧
      lockMutex tid (some m) w =
        LockOutcome.ret 1 (some m)
          (printError c (some msgLockFail) { w with errno := c })) ∧
    (∀ tid m w c, pthreadMutexUnlock tid m = OsResult.err c → c ≠ 0 ∧
      unlockMutex tid (some m) w =
        (1, some m, printError c (some msgUnlockFail) { w with errno := c })) ∧
    (∀ tid m w dr c, pthreadMutexTrylock tid m = OsResult.err c → c ≠ 0 ∧
      destroyMutex tid (some m) dr w =
        ⟨1, false, false, some m,
          printError c (some msgDestroyLocked) { w with errno := c }⟩) ∧
    (∀ tid m w dr, m.state = MutexState.unlocked → dr ≠ 0 →
      (destroyMutex tid (some m) dr w).world =
        printError dr (some msgDestroyFail) { w with errno := dr }) := by
  refine ⟨fun tid w => rfl, fun tid w => rfl, fun tid dr w => rfl, fun c msg w => rfl,
    ?_, ?_, ?_, ?_⟩
  · intro tid m w c h
    refine ⟨pthreadMutexLock_err_ne_zero tid m c h, ?_⟩
    simp only [lockMutex, h]
  · intro tid m w c h
    refine ⟨pthreadMutexUnlock_err_ne_zero tid m c h, ?_⟩
    simp only [unlockMutex, h]
  · intro tid m w dr c h
    refine ⟨pthreadMutexTrylock_err_ne_zero tid m c h, ?_⟩
    simp only [destroyMutex, h]
  · intro tid m w dr hs hdr
    obtain ⟨k, s⟩ := m
    simp only at hs
    subst hs
    simp [destroyMutex, pthreadMutexTrylock, unlockMutex, pthreadMutexUnlock, hdr]

/-- C9 witness: on concrete inputs — null handles for the three
operations, a self-relock, a non-owner unlock, a locked-handle destroy
probe and a failing OS destroy — `errno` carries the OS code on OS
failures and is untouched (with a code-0 report) on null-argument
failures. -/
theorem errno_discipline_witness :
    lockMutex 1 none ⟨7, [], 0, 0⟩ =
      LockOutcome.ret 1 none (printError 0 (some msgLockNull) ⟨7, [], 0, 0⟩) ∧
    unlockMutex 1 none ⟨7, [], 0, 0⟩ =
      (1, none, printError 0 (some msgUnlockNull) ⟨7, [], 0, 0⟩) ∧
    destroyMutex 1 none 0 ⟨7, [], 0, 0⟩ =
      ⟨1, false, false, none, printError 0 (some msgDestroyNull) ⟨7, [], 0, 0⟩⟩ ∧
    (printError 0 (some msgLockNull) ⟨7, [], 0, 0⟩).errno = (⟨7, [], 0, 0⟩ : World).errno ∧
    (EDEADLK ≠ 0 ∧ lockMutex 1 (some ⟨2, MutexState.locked 1⟩) ⟨7, [], 0, 0⟩ =
      LockOutcome.ret 1 (some ⟨2, MutexState.locked 1⟩)
        (printError EDEADLK (some msgLockFail) ⟨EDEADLK, [], 0, 0⟩)) ∧
    (EPERM ≠ 0 ∧ unlockMutex 1 (some ⟨2, MutexState.unlocked⟩) ⟨7, [], 0, 0⟩ =
      (1, some ⟨2, MutexState.unlocked⟩,
        printError EPERM (some msgUnlockFail) ⟨EPERM, [], 0, 0⟩)) ∧
    (EBUSY ≠ 0 ∧ destroyMutex 1 (some ⟨2, MutexState.locked 9⟩) 0 ⟨7, [], 0, 0⟩ =
      ⟨1, false, false, some ⟨2, MutexState.locked 9⟩,
        printError EBUSY (some msgDestroyLocked) ⟨EBUSY, [], 0, 0⟩⟩) ∧
    (destroyMutex 1 (some ⟨2, MutexState.unlocked⟩) EINVAL ⟨7, [], 0, 1⟩).world =
      printError EINVAL (some msgDestroyFail) ⟨EINVAL, [], 0, 1⟩ :=
  ⟨errno_discipline.1 1 ⟨7, [], 0, 0⟩,
    errno_discipline.2.1 1 ⟨7, [], 0, 0⟩,
    errno_discipline.2.2.1 1 0 ⟨7, [], 0, 0⟩,
    errno_discipline.2.2.2.1 0 (some msgLockNull) ⟨7, [], 0, 0⟩,
    errno_discipline.2.2.2.2.1 1 ⟨2, MutexState.locked 1⟩ ⟨7, [], 0, 0⟩ EDEADLK rfl,
    errno_discipline.2.2.2.2.2.1 1 ⟨2, MutexState.unlocked⟩ ⟨7, [], 0, 0⟩ EPERM rfl,
    errno_discipline.2.2.2.2.2.2.1 1 ⟨2, MutexState.locked 9⟩ ⟨7, [], 0, 0⟩ 0 EBUSY rfl,
    errno_discipline.2.2.2.2.2.2.2 1 ⟨2, MutexState.unlocked⟩ ⟨7, [], 0, 1⟩ EINVAL rfl
      (by decide)⟩

end CMutex
